import Mathlib

/-!
Verification development for the Sawa backend (Express + Prisma).

The request handlers of the story, follow, OTP and auth controllers are
shallowly embedded as pure functions over an explicit database state.
Timestamps are epoch milliseconds (`Int`); numeric latitude/longitude data
is modelled over the exact rationals, with the floating-point library
functions used by the geometry code (Math.sin, Math.cos, Math.sqrt,
Math.atan2, Math.PI) abstracted into an explicit `Trig` record, so that
every formula-level statement holds for the formula structure rather than
for one particular approximation of the transcendental functions.
-/

/-- Application-level error as thrown by the AppError(message, statusCode)
class and surfaced by the error middleware. -/
structure AppError where
  message : String
  status : Nat
deriving DecidableEq

/-- JS truthiness for an optional string: null/undefined and "" are falsy. -/
def jsStrTruthy : Option String → Bool
  | none => false
  | some s => !(s = "")

/-- JS `a || b` where `a` is an optional string and `b` a fallback. -/
def jsOrElse (a : Option String) (b : String) : String :=
  match a with
  | some s => if s = "" then b else s
  | none => b

/-- `s.toLowerCase()`, computed characterwise. -/
def strToLower (s : String) : String :=
  String.mk (s.toList.map Char.toLower)

/-- `s.split(sep)[0]`: the prefix of s up to the first occurrence of sep. -/
def splitHeadAt (sep : Char) (s : String) : String :=
  String.mk (s.toList.takeWhile (fun c => !(c = sep)))

/-- `s.startsWith(p)`, computed on the character lists. -/
def strStartsWith (s p : String) : Bool :=
  p.toList.isPrefixOf s.toList

/-- `user.name || user.email?.split("@")[0] || "User"`, the display-name
fallback chain used when formatting story responses. -/
def displayName (name : Option String) (email : String) : String :=
  jsOrElse name (jsOrElse (some (splitHeadAt '@' email)) "User")

/-- Characters removed by the normalization regex `[\s\-\(\)]` in
`normalizeMobileNumber` (whitespace, dashes and parentheses). -/
def isStrippedChar (c : Char) : Bool :=
  c = ' ' || c = '\t' || c = '\n' || c = '\r' || c = '-' || c = '(' || c = ')'

/-- utils/otp.ts normalizeMobileNumber: strips spaces, dashes, parentheses. -/
def normalizeMobileNumber (mobile : String) : String :=
  String.mk (mobile.toList.filter (fun c => !isStrippedChar c))

/-- ECMAScript Math.round: round half toward positive infinity,
i.e. floor(x + 1/2). -/
def jsRound (q : ℚ) : ℤ := ⌊q + 1 / 2⌋

/-- `Math.round(x * 10) / 10`: round to one decimal place. -/
def roundTo1 (q : ℚ) : ℚ := (jsRound (q * 10) : ℚ) / 10

/-- The mathematical library functions used by the geometry code, abstracted
as an explicit record over ℚ. -/
structure Trig where
  cos : ℚ → ℚ
  sin : ℚ → ℚ
  sqrt : ℚ → ℚ
  atan2 : ℚ → ℚ → ℚ
  pi : ℚ

/-- The Haversine great-circle distance as computed inline by
getNearbyStories: Earth radius R = 6371 km, angles converted via pi/180. -/
def haversineDistance (t : Trig) (lat1 lon1 lat2 lon2 : ℚ) : ℚ :=
  let R : ℚ := 6371
  let dLat := (lat2 - lat1) * t.pi / 180
  let dLon := (lon2 - lon1) * t.pi / 180
  let a := t.sin (dLat / 2) * t.sin (dLat / 2) +
    t.cos (lat1 * t.pi / 180) * t.cos (lat2 * t.pi / 180) *
    t.sin (dLon / 2) * t.sin (dLon / 2)
  let c := 2 * t.atan2 (t.sqrt a) (t.sqrt (1 - a))
  R * c

/-- A row of the User table (columns relevant to the verified handlers). -/
structure User where
  id : String
  email : String
  mobile : String
  password : String
  name : Option String
  gender : Option String
  profilePhoto : Option String
  mobileVerified : Bool
  latitude : Option ℚ
  longitude : Option ℚ
  createdAt : Int
deriving DecidableEq

/-- A row of the Otp table. -/
structure Otp where
  id : String
  mobile : String
  code : String
  expiresAt : Int
  verified : Bool
  createdAt : Int
deriving DecidableEq

/-- A row of the Story table. -/
structure Story where
  id : String
  userId : String
  imageUrl : String
  location : Option String
  locationAddress : Option String
  likesCount : Int
  viewsCount : Int
  createdAt : Int
  expiresAt : Int
deriving DecidableEq

/-- A row of the StoryLike join table; `id` models the generated primary key. -/
structure StoryLike where
  id : Nat
  storyId : String
  userId : String
deriving DecidableEq

/-- A row of the StoryView join table; `id` models the generated primary key. -/
structure StoryView where
  id : Nat
  storyId : String
  userId : String
deriving DecidableEq

/-- A row of the Follow table: (followerId, followingId). -/
structure Follow where
  followerId : String
  followingId : String
deriving DecidableEq

/-- The database state. `nextRowId` models the supply of fresh generated
primary keys for join rows. -/
structure DB where
  users : List User
  otps : List Otp
  stories : List Story
  storyLikes : List StoryLike
  storyViews : List StoryView
  follows : List Follow
  nextRowId : Nat
deriving DecidableEq

/-- `orderBy createdAt desc` on stories: a comes no later than b. -/
def Story.newerFirst (a b : Story) : Prop := b.createdAt ≤ a.createdAt

instance : DecidableRel Story.newerFirst :=
  fun a b => inferInstanceAs (Decidable (b.createdAt ≤ a.createdAt))

instance : IsTotal Story Story.newerFirst :=
  ⟨fun a b => le_total b.createdAt a.createdAt⟩

instance : IsTrans Story Story.newerFirst :=
  ⟨fun _ _ _ h1 h2 => le_trans h2 h1⟩

/-- `orderBy createdAt desc` on OTP rows. -/
def Otp.newerFirst (a b : Otp) : Prop := b.createdAt ≤ a.createdAt

instance : DecidableRel Otp.newerFirst :=
  fun a b => inferInstanceAs (Decidable (b.createdAt ≤ a.createdAt))

/-- Modelled from the spec: the uniform error middleware (whose source is not
under src/) maps an unexpected database write failure to a generic failure
response; only failure itself matters to the claims, not the message. -/
def dbWriteFailure : AppError := { message := "Internal server error", status := 500 }

/-- The signup request body. -/
structure SignupRequest where
  email : String
  password : String
  name : Option String
  mobile : String
  gender : Option String
deriving DecidableEq

/-- auth.controller.ts signup. `hash` stands for the bcrypt password hash,
`avatar` for generateDefaultAvatar, `newId` for the generated user id, and
`now` for the request time (the User.createdAt column default). -/
def signup (db : DB) (req : SignupRequest) (hash : String → String)
    (avatar : Option String → String) (now : Int) (newId : String) :
    Except AppError User × DB :=
  if req.mobile = "" then
    (Except.error { message := "Mobile number is required", status := 400 }, db)
  else if jsStrTruthy req.gender &&
      !(["male", "female"].contains (strToLower (req.gender.getD ""))) then
    (Except.error { message := "Gender must be either \x27male\x27 or \x27female\x27", status := 400 }, db)
  else
    let nm := normalizeMobileNumber req.mobile
    let verifiedOTPs := List.insertionSort Otp.newerFirst
      (db.otps.filter (fun o => o.mobile == nm && o.verified))
    match verifiedOTPs.head? with
    | none =>
      (Except.error { message := "Mobile number must be verified before signup", status := 400 }, db)
    | some _ =>
      match db.users.find? (fun u => u.email == req.email) with
      | some _ =>
        (Except.error { message := "User with this email already exists", status := 409 }, db)
      | none =>
        match db.users.find? (fun u => u.mobile == nm) with
        | some _ =>
          (Except.error { message := "User with this mobile number already exists", status := 409 }, db)
        | none =>
          let newUser : User := {
            id := newId
            email := req.email
            mobile := nm
            password := hash req.password
            name := if jsStrTruthy req.name then req.name else none
            gender := if jsStrTruthy req.gender then some (strToLower (req.gender.getD "")) else none
            profilePhoto := some (avatar req.gender)
            mobileVerified := true
            latitude := none
            longitude := none
            createdAt := now }
          let db1 := { db with users := db.users ++ [newUser] }
          let db2 := { db1 with
            otps := db1.otps.filter (fun o => !(o.mobile == nm && o.verified)) }
          (Except.ok newUser, db2)

/-- story.controller.ts uploadStory. `newId` stands for the generated story
id; the story's createdAt column (schema default now()) is modelled as the
request time, and `expiresAt.setHours(getHours() + 24)` as adding exactly
24 hours of epoch milliseconds. -/
def uploadStory (db : DB) (userId : String) (imageUrl : Option String)
    (location locationAddress : Option String) (now : Int) (newId : String) :
    Except AppError Story × DB :=
  if userId = "" then
    (Except.error { message := "User not authenticated", status := 401 }, db)
  else if !jsStrTruthy imageUrl then
    (Except.error { message := "Image URL is required", status := 400 }, db)
  else
    let url := imageUrl.getD ""
    if !(strStartsWith url "data:image/" || strStartsWith url "http://" || strStartsWith url "https://") then
      (Except.error { message := "Invalid image format. Expected base64 data URL or HTTP/HTTPS URL", status := 400 }, db)
    else
      let story : Story := {
        id := newId
        userId := userId
        imageUrl := url
        location := if jsStrTruthy location then location else none
        locationAddress := if jsStrTruthy locationAddress then locationAddress else none
        likesCount := 0
        viewsCount := 0
        createdAt := now
        expiresAt := now + 24 * 60 * 60 * 1000 }
      (Except.ok story, { db with stories := db.stories ++ [story] })

/-- A story response entry as formatted by getUserStories and
getFollowingStories (owner data flattened in). -/
structure StoryEntry where
  id : String
  userId : String
  imageUrl : String
  location : Option String
  locationAddress : Option String
  likesCount : Int
  viewsCount : Int
  expiresAt : Int
  createdAt : Int
  userName : String
  userProfilePhoto : Option String
  userGender : Option String
deriving DecidableEq

/-- Formats one story row together with its (included) owner row. -/
def mkStoryEntry (s : Story) (owner : Option User) : StoryEntry := {
  id := s.id
  userId := s.userId
  imageUrl := s.imageUrl
  location := if jsStrTruthy s.location then s.location else none
  locationAddress := if jsStrTruthy s.location then s.locationAddress else none
  likesCount := s.likesCount
  viewsCount := s.viewsCount
  expiresAt := s.expiresAt
  createdAt := s.createdAt
  userName := match owner with
    | some u => displayName u.name u.email
    | none => "User"
  userProfilePhoto := owner.bind (fun u => u.profilePhoto)
  userGender := owner.bind (fun u => u.gender) }

/-- story.controller.ts getUserStories: the requesting user's active
(non-expired) stories ordered by createdAt desc, of which only the most
recent one is returned (or null). -/
def getUserStories (db : DB) (userId : String) (now : Int) :
    Except AppError (Option StoryEntry) :=
  if userId = "" then
    Except.error { message := "User not authenticated", status := 401 }
  else
    let stories := List.insertionSort Story.newerFirst
      (db.stories.filter (fun s => s.userId == userId && decide (now < s.expiresAt)))
    match stories.head? with
    | none => Except.ok none
    | some latest =>
      Except.ok (some (mkStoryEntry latest (db.users.find? (fun u => u.id == latest.userId))))

/-- Response body of likeStory. -/
structure LikeResponse where
  message : String
  liked : Bool
deriving DecidableEq

/-- story.controller.ts likeStory: toggles a like. The two database writes of
each branch are modelled separately; `failRowWrite` injects a failure into the
first write (the StoryLike create/delete) and `failCountWrite` into the second
(the likesCount counter update). The code runs the two writes sequentially
with no enclosing transaction. -/
def likeStory (db : DB) (storyId userId : String) (now : Int)
    (failRowWrite failCountWrite : Bool) : Except AppError LikeResponse × DB :=
  if userId = "" then
    (Except.error { message := "User not authenticated", status := 401 }, db)
  else if storyId = "" then
    (Except.error { message := "Story ID is required", status := 400 }, db)
  else match db.stories.find? (fun s => s.id == storyId) with
  | none => (Except.error { message := "Story not found", status := 404 }, db)
  | some story =>
    if story.expiresAt < now then
      (Except.error { message := "Story has expired", status := 410 }, db)
    else match db.storyLikes.find? (fun l => l.storyId == storyId && l.userId == userId) with
    | some existingLike =>
      if failRowWrite then (Except.error dbWriteFailure, db)
      else
        let db1 := { db with
          storyLikes := db.storyLikes.filter (fun l => !(l.id == existingLike.id)) }
        if failCountWrite then (Except.error dbWriteFailure, db1)
        else
          let db2 := { db1 with stories := db1.stories.map (fun s =>
            if s.id == storyId then { s with likesCount := s.likesCount - 1 } else s) }
          (Except.ok { message := "Story unliked", liked := false }, db2)
    | none =>
      if failRowWrite then (Except.error dbWriteFailure, db)
      else
        let db1 := { db with
          storyLikes := db.storyLikes ++ [{ id := db.nextRowId, storyId := storyId, userId := userId }]
          nextRowId := db.nextRowId + 1 }
        if failCountWrite then (Except.error dbWriteFailure, db1)
        else
          let db2 := { db1 with stories := db1.stories.map (fun s =>
            if s.id == storyId then { s with likesCount := s.likesCount + 1 } else s) }
          (Except.ok { message := "Story liked", liked := true }, db2)

/-- story.controller.ts viewStory: records a view once per user, skipping the
story owner. Failure injection mirrors likeStory. -/
def viewStory (db : DB) (storyId userId : String) (now : Int)
    (failRowWrite failCountWrite : Bool) : Except AppError String × DB :=
  if userId = "" then
    (Except.error { message := "User not authenticated", status := 401 }, db)
  else if storyId = "" then
    (Except.error { message := "Story ID is required", status := 400 }, db)
  else match db.stories.find? (fun s => s.id == storyId) with
  | none => (Except.error { message := "Story not found", status := 404 }, db)
  | some story =>
    if story.expiresAt < now then
      (Except.error { message := "Story has expired", status := 410 }, db)
    else if story.userId == userId then
      (Except.ok "Story viewed (own story, view not tracked)", db)
    else match db.storyViews.find? (fun v => v.storyId == storyId && v.userId == userId) with
    | some _ => (Except.ok "Story viewed", db)
    | none =>
      if failRowWrite then (Except.error dbWriteFailure, db)
      else
        let db1 := { db with
          storyViews := db.storyViews ++ [{ id := db.nextRowId, storyId := storyId, userId := userId }]
          nextRowId := db.nextRowId + 1 }
        if failCountWrite then (Except.error dbWriteFailure, db1)
        else
          let db2 := { db1 with stories := db1.stories.map (fun s =>
            if s.id == storyId then { s with viewsCount := s.viewsCount + 1 } else s) }
          (Except.ok "Story viewed", db2)

/-- follow.controller.ts followUser. -/
def followUser (db : DB) (userId followingId : String) : Except AppError String × DB :=
  if userId = "" then
    (Except.error { message := "User not authenticated", status := 401 }, db)
  else if followingId = "" then
    (Except.error { message := "Following user ID is required", status := 400 }, db)
  else if userId = followingId then
    (Except.error { message := "Cannot follow yourself", status := 400 }, db)
  else match db.users.find? (fun u => u.id == followingId) with
  | none => (Except.error { message := "User not found", status := 404 }, db)
  | some _ =>
    match db.follows.find? (fun f => f.followerId == userId && f.followingId == followingId) with
    | some _ =>
      (Except.error { message := "Already following this user", status := 400 }, db)
    | none =>
      (Except.ok "User followed successfully",
        { db with follows := db.follows ++ [{ followerId := userId, followingId := followingId }] })

/-- One step of the Map-based grouping of getFollowingStories: keep, per
userId, the story with the strictly greatest createdAt seen so far, in
first-insertion key order (JS Map set semantics). -/
def groupStep (acc : List Story) (story : Story) : List Story :=
  match acc.find? (fun e => e.userId == story.userId) with
  | none => acc ++ [story]
  | some existing =>
    if existing.createdAt < story.createdAt then
      acc.map (fun e => if e.userId == story.userId then story else e)
    else acc

/-- The Map-based grouping of getFollowingStories over the whole story list. -/
def groupLatestByUser (stories : List Story) : List Story :=
  stories.foldl groupStep []

/-- follow.controller.ts getFollowingStories: active stories of followed
users, ordered by createdAt desc, grouped to the latest story per user. -/
def getFollowingStories (db : DB) (userId : String) (now : Int) :
    Except AppError (List StoryEntry) :=
  if userId = "" then
    Except.error { message := "User not authenticated", status := 401 }
  else
    let followingIds := (db.follows.filter (fun f => f.followerId == userId)).map
      (fun f => f.followingId)
    if followingIds.isEmpty then Except.ok []
    else
      let stories := List.insertionSort Story.newerFirst
        (db.stories.filter (fun s => followingIds.contains s.userId && decide (now < s.expiresAt)))
      Except.ok ((groupLatestByUser stories).map (fun s =>
        mkStoryEntry s (db.users.find? (fun u => u.id == s.userId))))

/-- Parsed query parameters of a nearby-stories request. -/
structure NearbyQuery where
  latitude : ℚ
  longitude : ℚ
  radiusKm : ℚ
deriving DecidableEq

/-- A nearby-stories response entry. -/
structure NearbyEntry where
  id : String
  userId : String
  imageUrl : String
  location : Option String
  locationAddress : Option String
  likesCount : Int
  viewsCount : Int
  expiresAt : Int
  createdAt : Int
  userName : String
  userProfilePhoto : Option String
  distance : ℚ
deriving DecidableEq

/-- The bounding-box filter of getNearbyStories: latDelta = radius/111,
lonDelta = radius/(111 * cos(lat * pi/180)); users with null coordinates are
rejected, box bounds are inclusive. -/
def inBoundingBox (t : Trig) (q : NearbyQuery) (u : User) : Bool :=
  let latDelta := q.radiusKm / 111
  let lonDelta := q.radiusKm / (111 * t.cos (q.latitude * t.pi / 180))
  let minLat := q.latitude - latDelta
  let maxLat := q.latitude + latDelta
  let minLon := q.longitude - lonDelta
  let maxLon := q.longitude + lonDelta
  match u.latitude, u.longitude with
  | some la, some lo =>
    decide (minLat ≤ la) && decide (la ≤ maxLat) && decide (minLon ≤ lo) && decide (lo ≤ maxLon)
  | _, _ => false

/-- `stories: { some: { expiresAt: { gt: now } } }`: the user has at least
one non-expired story. -/
def hasActiveStory (db : DB) (u : User) (now : Int) : Bool :=
  db.stories.any (fun s => s.userId == u.id && decide (now < s.expiresAt))

/-- The user query of getNearbyStories: all users other than the requester,
with a stored location inside the bounding box, having an active story. -/
def nearbyCandidates (t : Trig) (db : DB) (userId : String) (q : NearbyQuery)
    (now : Int) : List User :=
  db.users.filter (fun u =>
    !(u.id == userId) && inBoundingBox t q u && hasActiveStory db u now)

/-- The included per-user story list of the nearby query: non-expired stories
of one user, ordered by createdAt desc (of which the code takes 1). -/
def activeStoriesOf (db : DB) (uid : String) (now : Int) : List Story :=
  List.insertionSort Story.newerFirst
    (db.stories.filter (fun s => s.userId == uid && decide (now < s.expiresAt)))

/-- Formats one nearby-stories entry for candidate user u and story s,
computing the Haversine distance from the search point to the candidate's
stored coordinates, rounded to one decimal place. -/
def mkNearbyEntry (t : Trig) (q : NearbyQuery) (u : User) (s : Story) : NearbyEntry := {
  id := s.id
  userId := s.userId
  imageUrl := s.imageUrl
  location := if jsStrTruthy s.location then s.location else none
  locationAddress := if jsStrTruthy s.location then
      (if jsStrTruthy s.locationAddress then s.locationAddress else none)
    else none
  likesCount := s.likesCount
  viewsCount := s.viewsCount
  expiresAt := s.expiresAt
  createdAt := s.createdAt
  userName := displayName u.name u.email
  userProfilePhoto := u.profilePhoto
  distance := roundTo1 (haversineDistance t q.latitude q.longitude
    (u.latitude.getD 0) (u.longitude.getD 0)) }

/-- Ascending order on the (rounded) distance field, as sorted by the final
`.sort((a, b) => a.distance - b.distance)`. -/
def NearbyEntry.byDistance (a b : NearbyEntry) : Prop := a.distance ≤ b.distance

instance : DecidableRel NearbyEntry.byDistance :=
  fun a b => inferInstanceAs (Decidable (a.distance ≤ b.distance))

instance : IsTotal NearbyEntry NearbyEntry.byDistance :=
  ⟨fun a b => le_total a.distance b.distance⟩

instance : IsTrans NearbyEntry NearbyEntry.byDistance :=
  ⟨fun _ _ _ h1 h2 => le_trans h1 h2⟩

/-- The entry produced for one candidate user: their latest active story
(take 1 of the ordered include), formatted with its distance; candidates
whose story list came back empty are dropped by the
`.filter((user) => user.stories.length > 0)` step, modelled by `none`. -/
def nearbyEntryOf (t : Trig) (db : DB) (q : NearbyQuery) (now : Int)
    (u : User) : Option NearbyEntry :=
  match (activeStoriesOf db u.id now).head? with
  | none => none
  | some s => some (mkNearbyEntry t q u s)

/-- story.controller.ts getNearbyStories (the core computation, after
authentication and query-string parsing): bounding-box candidate query,
latest active story per candidate, Haversine distance, ascending sort. -/
def getNearbyStories (t : Trig) (db : DB) (userId : String) (q : NearbyQuery)
    (now : Int) : List NearbyEntry :=
  let entries := (nearbyCandidates t db userId q now).filterMap
    (nearbyEntryOf t db q now)
  List.insertionSort NearbyEntry.byDistance entries

/-- The candidate set exactly as claim C1 words it: every stored user whose
location lies inside the bounding box
[lat - r/111, lat + r/111] x [lon - r/(111 cos(lat pi/180)), lon + r/(111 cos(lat pi/180))]
and who has at least one story expiring strictly after the request time;
users without a stored location are excluded. (Note: this wording does not
exclude the requesting user.) -/
def claimedCandidate (t : Trig) (db : DB) (q : NearbyQuery) (now : Int) (u : User) : Prop :=
  u ∈ db.users ∧
  (∃ la lo, u.latitude = some la ∧ u.longitude = some lo ∧
    q.latitude - q.radiusKm / 111 ≤ la ∧
    la ≤ q.latitude + q.radiusKm / 111 ∧
    q.longitude - q.radiusKm / (111 * t.cos (q.latitude * t.pi / 180)) ≤ lo ∧
    lo ≤ q.longitude + q.radiusKm / (111 * t.cos (q.latitude * t.pi / 180))) ∧
  (∃ s ∈ db.stories, s.userId = u.id ∧ now < s.expiresAt)

/-- The state invariant of claim C7 (DBInv): like/view rows are unique per
(story, user) pair, their generated ids are distinct and below the fresh-id
supply, and every story's counters equal its row counts. -/
def DBInv (db : DB) : Prop :=
  List.Pairwise (fun a b : StoryLike => ¬(a.storyId = b.storyId ∧ a.userId = b.userId)) db.storyLikes ∧
  List.Pairwise (fun a b : StoryView => ¬(a.storyId = b.storyId ∧ a.userId = b.userId)) db.storyViews ∧
  (∀ l ∈ db.storyLikes, l.id < db.nextRowId) ∧
  (∀ v ∈ db.storyViews, v.id < db.nextRowId) ∧
  (db.storyLikes.map StoryLike.id).Nodup ∧
  (db.storyViews.map StoryView.id).Nodup ∧
  (∀ s ∈ db.stories,
    s.likesCount = (db.storyLikes.countP (fun l => l.storyId == s.id) : Int) ∧
    s.viewsCount = (db.storyViews.countP (fun v => v.storyId == s.id) : Int))

/-- One like or view request, as issued against the running server. -/
inductive StoryOp
  | like (storyId userId : String) (now : Int)
  | view (storyId userId : String) (now : Int)

/-- The state reached after one request (fault-free execution; requests that
fail validation leave the state unchanged). -/
def applyOp (db : DB) : StoryOp → DB
  | StoryOp.like storyId userId now => (likeStory db storyId userId now false false).2
  | StoryOp.view storyId userId now => (viewStory db storyId userId now false false).2

/-- The state reached after a sequence of like/view requests. -/
def runOps (db : DB) (ops : List StoryOp) : DB :=
  ops.foldl applyOp db

/-- The empty database. -/
def emptyDB : DB :=
  { users := [], otps := [], stories := [], storyLikes := [], storyViews := [],
    follows := [], nextRowId := 0 }

/-- A concrete interpretation of the math library, used to instantiate the
abstract `Trig` record in concrete examples. -/
def exTrig : Trig :=
  { cos := fun _ => 1, sin := fun _ => 0, sqrt := fun x => x,
    atan2 := fun _ _ => 0, pi := 3 }

/-- Example user with stored location (0, 0). -/
def aliceUser : User :=
  { id := "u1", email := "alice@x.y", mobile := "111", password := "h",
    name := some "Alice", gender := none, profilePhoto := none,
    mobileVerified := true, latitude := some 0, longitude := some 0,
    createdAt := 0 }

/-- Example user without a stored location. -/
def bobUser : User :=
  { id := "u2", email := "bob@x.y", mobile := "222", password := "h",
    name := some "Bob", gender := none, profilePhoto := none,
    mobileVerified := true, latitude := none, longitude := none,
    createdAt := 0 }

/-- Example active story owned by aliceUser (expires at t = 100). -/
def aliceStory : Story :=
  { id := "s1", userId := "u1", imageUrl := "https://img",
    location := none, locationAddress := none, likesCount := 0,
    viewsCount := 0, createdAt := 1, expiresAt := 100 }

/-- Example nearby query: search point (0, 0), radius 0 km. -/
def exQuery : NearbyQuery := { latitude := 0, longitude := 0, radiusKm := 0 }

/-- Example database: one located user with one active story. -/
def exDB : DB :=
  { users := [aliceUser], otps := [], stories := [aliceStory],
    storyLikes := [], storyViews := [], follows := [], nextRowId := 0 }

/-- Example database with an existing follow relation u1 -> u2. -/
def exFollowDB : DB :=
  { users := [aliceUser, bobUser], otps := [], stories := [],
    storyLikes := [], storyViews := [],
    follows := [{ followerId := "u1", followingId := "u2" }], nextRowId := 0 }

/-- The nearby-stories entry produced for aliceUser and aliceStory. -/
def exEntry : NearbyEntry := mkNearbyEntry exTrig exQuery aliceUser aliceStory

/-- The story entry produced for aliceStory with owner aliceUser. -/
def exStoryEntry : StoryEntry := mkStoryEntry aliceStory (some aliceUser)

/-- Example signup request with an invalid gender value. -/
def exSignupReq : SignupRequest :=
  { email := "a@b.c", password := "pw", name := none, mobile := "123",
    gender := some "x" }

/-- Example request sequence: one like and one view on story s1 by user u2. -/
def exOps : List StoryOp := [StoryOp.like "s1" "u2" 5, StoryOp.view "s1" "u2" 5]

/-- The story created by the example upload request at time 7. -/
def upStory : Story :=
  { id := "s2", userId := "u1", imageUrl := "https://img", location := none,
    locationAddress := none, likesCount := 0, viewsCount := 0, createdAt := 7,
    expiresAt := 7 + 24 * 60 * 60 * 1000 }

/-! ## Helper lemmas -/

lemma mem_activeStoriesOf {db : DB} {uid : String} {now : Int} {s : Story}
    (h : s ∈ activeStoriesOf db uid now) :
    s ∈ db.stories ∧ s.userId = uid ∧ now < s.expiresAt := by
  unfold activeStoriesOf at h
  have h2 := (List.perm_insertionSort Story.newerFirst _).mem_iff.mp h
  simp only [List.mem_filter, Bool.and_eq_true, beq_iff_eq, decide_eq_true_eq] at h2
  exact ⟨h2.1, h2.2.1, h2.2.2⟩

lemma inBoundingBox_iff (t : Trig) (q : NearbyQuery) (u : User) :
    inBoundingBox t q u = true ↔
      ∃ la lo, u.latitude = some la ∧ u.longitude = some lo ∧
        q.latitude - q.radiusKm / 111 ≤ la ∧
        la ≤ q.latitude + q.radiusKm / 111 ∧
        q.longitude - q.radiusKm / (111 * t.cos (q.latitude * t.pi / 180)) ≤ lo ∧
        lo ≤ q.longitude + q.radiusKm / (111 * t.cos (q.latitude * t.pi / 180)) := by
  unfold inBoundingBox
  cases hla : u.latitude with
  | none => simp
  | some la =>
    cases hlo : u.longitude with
    | none => simp
    | some lo =>
      simp only [Bool.and_eq_true, decide_eq_true_eq]
      constructor
      · rintro ⟨⟨⟨h1, h2⟩, h3⟩, h4⟩
        exact ⟨la, lo, rfl, rfl, h1, h2, h3, h4⟩
      · rintro ⟨la2, lo2, hla2, hlo2, h1, h2, h3, h4⟩
        cases hla2
        cases hlo2
        exact ⟨⟨⟨h1, h2⟩, h3⟩, h4⟩

lemma hasActiveStory_iff (db : DB) (u : User) (now : Int) :
    hasActiveStory db u now = true ↔
      ∃ s ∈ db.stories, s.userId = u.id ∧ now < s.expiresAt := by
  unfold hasActiveStory
  simp [List.any_eq_true]

lemma mem_nearbyCandidates_iff (t : Trig) (db : DB) (userId : String)
    (q : NearbyQuery) (now : Int) (u : User) :
    u ∈ nearbyCandidates t db userId q now ↔
      u ∈ db.users ∧ u.id ≠ userId ∧ inBoundingBox t q u = true ∧
        hasActiveStory db u now = true := by
  unfold nearbyCandidates
  simp [List.mem_filter, and_assoc]

/-! ## C9: story expiry is exactly 24 hours after creation -/

/-- C9: every story successfully created by uploadStory is appended to the
story table with expiry timestamp exactly 24 hours (in epoch milliseconds)
after its creation timestamp, which is the request time. -/
theorem uploadStory_expiry_24h (db : DB) (userId : String)
    (imageUrl location locationAddress : Option String) (now : Int)
    (newId : String) (resp : Story) (db2 : DB)
    (h : uploadStory db userId imageUrl location locationAddress now newId =
      (Except.ok resp, db2)) :
    db2.stories = db.stories ++ [resp] ∧ resp.createdAt = now ∧
      resp.expiresAt = resp.createdAt + 24 * 60 * 60 * 1000 := by
  simp only [uploadStory] at h
  by_cases h1 : userId = ""
  · simp only [if_pos h1] at h
    exact absurd (congrArg Prod.fst h) (by simp)
  simp only [if_neg h1] at h
  by_cases h2 : (!jsStrTruthy imageUrl) = true
  · simp only [if_pos h2] at h
    exact absurd (congrArg Prod.fst h) (by simp)
  simp only [if_neg h2] at h
  by_cases h3 : (!(strStartsWith (imageUrl.getD "") "data:image/" ||
      strStartsWith (imageUrl.getD "") "http://" ||
      strStartsWith (imageUrl.getD "") "https://")) = true
  · simp only [if_pos h3] at h
    exact absurd (congrArg Prod.fst h) (by simp)
  simp only [if_neg h3] at h
  rw [Prod.mk.injEq, Except.ok.injEq] at h
  obtain ⟨hr, hd⟩ := h
  subst hr
  subst hd
  exact ⟨rfl, rfl, rfl⟩

/-- Witness for C9 at a concrete request. -/
theorem uploadStory_expiry_24h_witness :
    ({ emptyDB with stories := emptyDB.stories ++ [upStory] } : DB).stories =
        emptyDB.stories ++ [upStory] ∧
      upStory.createdAt = 7 ∧
      upStory.expiresAt = upStory.createdAt + 24 * 60 * 60 * 1000 :=
  uploadStory_expiry_24h emptyDB "u1" (some "https://img") none none 7 "s2" upStory
    { emptyDB with stories := emptyDB.stories ++ [upStory] } rfl

/-! ## C10: viewing your own story succeeds but is not tracked -/

/-- Counterexample to C10 as stated: the expiry check runs before the
own-story branch, so an owner viewing their own expired story (here at
request time 200, past the story's expiresAt of 100) gets the 410
"Story has expired" failure rather than a successful response. -/
theorem viewStory_own_expired_story_fails :
    aliceStory.userId = "u1" ∧ aliceStory.expiresAt < 200 ∧
    (viewStory exDB "s1" "u1" 200 false false).1 =
      Except.error { message := "Story has expired", status := 410 } :=
  ⟨rfl, by decide, rfl⟩

/-- C10 as amended: when the requester owns the story and the story is not
expired (its expiresAt is not strictly before the request time), viewStory
answers successfully with the own-story message and the database state is
completely unchanged: no StoryView row is created and viewsCount stays as
it was. -/
theorem viewStory_own_story_untracked (db : DB) (storyId userId : String)
    (now : Int) (f1 f2 : Bool) (s : Story)
    (hu : userId ≠ "") (hs : storyId ≠ "")
    (hf : db.stories.find? (fun x => x.id == storyId) = some s)
    (hexp : ¬(s.expiresAt < now)) (hown : s.userId = userId) :
    viewStory db storyId userId now f1 f2 =
      (Except.ok "Story viewed (own story, view not tracked)", db) := by
  unfold viewStory
  rw [if_neg hu, if_neg hs, hf]
  simp [hexp, hown]

/-- Witness for C10: aliceUser views their own story s1. -/
theorem viewStory_own_story_untracked_witness :
    viewStory exDB "s1" "u1" 5 false false =
      (Except.ok "Story viewed (own story, view not tracked)", exDB) :=
  viewStory_own_story_untracked exDB "s1" "u1" 5 false false aliceStory
    (by decide) (by decide) (by decide) (by decide) (by decide)

/-! ## C8: followUser rejects self-follow and duplicate follow -/

/-- C8: followUser fails with 400 "Cannot follow yourself" when the target id
equals the (authenticated, hence nonempty) requester id, and fails with 400
"Already following this user" when a Follow row for (requester, target)
already exists (the target user existing, per referential integrity, and
differing from the requester, as self-follow rows are never created); in both
cases the database, and so the Follow table, is unchanged. -/
theorem followUser_rejects_self_and_duplicate (db : DB) (userId followingId : String)
    (hu : userId ≠ "") (hf : followingId ≠ "") :
    (followingId = userId →
      followUser db userId followingId =
        (Except.error { message := "Cannot follow yourself", status := 400 }, db)) ∧
    (userId ≠ followingId →
      (∃ u ∈ db.users, u.id = followingId) →
      (∃ f ∈ db.follows, f.followerId = userId ∧ f.followingId = followingId) →
      followUser db userId followingId =
        (Except.error { message := "Already following this user", status := 400 }, db)) := by
  constructor
  · intro hself
    unfold followUser
    rw [if_neg hu, if_neg hf, if_pos hself.symm]
  · intro hne hexists hdup
    unfold followUser
    rw [if_neg hu, if_neg hf, if_neg hne]
    obtain ⟨u, hum, huid⟩ := hexists
    obtain ⟨f, hfm, hf1, hf2⟩ := hdup
    have h1 : (db.users.find? (fun x => x.id == followingId)).isSome := by
      rw [List.find?_isSome]
      exact ⟨u, hum, by simp [huid]⟩
    have h2 : (db.follows.find? (fun x => x.followerId == userId && x.followingId == followingId)).isSome := by
      rw [List.find?_isSome]
      exact ⟨f, hfm, by simp [hf1, hf2]⟩
    obtain ⟨u2, hu2⟩ := Option.isSome_iff_exists.mp h1
    obtain ⟨f2, hf2e⟩ := Option.isSome_iff_exists.mp h2
    rw [hu2, hf2e]

/-- Witness for C8: u1 following u1 (self) and u1 re-following u2 (duplicate). -/
theorem followUser_rejects_witness :
    followUser exFollowDB "u1" "u1" =
      (Except.error { message := "Cannot follow yourself", status := 400 }, exFollowDB) ∧
    followUser exFollowDB "u1" "u2" =
      (Except.error { message := "Already following this user", status := 400 }, exFollowDB) :=
  ⟨(followUser_rejects_self_and_duplicate exFollowDB "u1" "u1" (by decide) (by decide)).1 rfl,
   (followUser_rejects_self_and_duplicate exFollowDB "u1" "u2" (by decide) (by decide)).2
     (by decide) ⟨bobUser, by decide, rfl⟩
     ⟨{ followerId := "u1", followingId := "u2" }, by decide, rfl, rfl⟩⟩

/-! ## C4: no atomicity across the two writes of likeStory/viewStory -/

/-- Counterexample to C4: u2 likes s1 and the second write (the likesCount
counter update) fails after the first write (the StoryLike create) succeeded;
the request fails, yet a StoryLike row has been persisted, so the stored data
is not left exactly as it was before the request. -/
theorem like_counter_failure_not_atomic :
    (likeStory exDB "s1" "u2" 5 false true).1 = Except.error dbWriteFailure ∧
    (likeStory exDB "s1" "u2" 5 false true).2.storyLikes ≠ exDB.storyLikes := by
  exact ⟨rfl, by decide⟩

/-- C4 as amended: each of the two sequential writes fails in isolation. If
the first write (the row create/delete) fails, the request fails with the
whole state unchanged; if the second write (the counter update) fails, the
stories table (hence likesCount/viewsCount) is unchanged, but the
StoryLike/StoryView table keeps exactly the rows a fully successful request
would have produced, so a row write can persist without its counter. -/
theorem like_view_two_writes_frame :
    ∀ (db : DB) (storyId userId : String) (now : Int) (b : Bool),
      (likeStory db storyId userId now true b).2 = db ∧
      (viewStory db storyId userId now true b).2 = db ∧
      (likeStory db storyId userId now b true).2.stories = db.stories ∧
      (viewStory db storyId userId now b true).2.stories = db.stories ∧
      (likeStory db storyId userId now false true).2.storyLikes =
        (likeStory db storyId userId now false false).2.storyLikes ∧
      (viewStory db storyId userId now false true).2.storyViews =
        (viewStory db storyId userId now false false).2.storyViews := by
  intro db storyId userId now b
  refine ⟨?_, ?_, ?_, ?_, ?_, ?_⟩ <;>
    · simp only [likeStory, viewStory]
      repeat first
        | rfl
        | split

/-! ## C5: signup requires a verified OTP -/

/-- Counterexample to C5 as stated: a signup request whose normalized mobile
has no verified Otp record but whose gender value is invalid fails with the
gender validation error, not with "Mobile number must be verified before
signup", because the gender check runs first. -/
theorem signup_gender_check_precedes_otp_check :
    (∀ o ∈ emptyDB.otps, ¬(o.mobile = normalizeMobileNumber exSignupReq.mobile ∧ o.verified = true)) ∧
    (signup emptyDB exSignupReq (fun p => p) (fun _ => "avatar") 0 "u9").1 =
      Except.error { message := "Gender must be either \x27male\x27 or \x27female\x27", status := 400 } ∧
    ({ message := "Gender must be either \x27male\x27 or \x27female\x27", status := 400 } : AppError) ≠
      { message := "Mobile number must be verified before signup", status := 400 } := by
  refine ⟨by simp [emptyDB], rfl, by decide⟩

/-- C5 as amended: for every signup request with a nonempty mobile number
that passes the (earlier) gender validation, if the normalized mobile number
has no Otp record with verified = true then signup fails with
"Mobile number must be verified before signup" and HTTP status 400, and the
database — in particular the User table — is unchanged. -/
theorem signup_requires_verified_otp (db : DB) (req : SignupRequest)
    (hash : String → String) (avatar : Option String → String) (now : Int)
    (newId : String)
    (hm : req.mobile ≠ "")
    (hg : (jsStrTruthy req.gender &&
      !(["male", "female"].contains (strToLower (req.gender.getD "")))) = false)
    (hno : ∀ o ∈ db.otps, ¬(o.mobile = normalizeMobileNumber req.mobile ∧ o.verified = true)) :
    signup db req hash avatar now newId =
      (Except.error { message := "Mobile number must be verified before signup", status := 400 }, db) := by
  have hfil : db.otps.filter
      (fun o => o.mobile == normalizeMobileNumber req.mobile && o.verified) = [] := by
    rw [List.filter_eq_nil_iff]
    intro o ho
    have := hno o ho
    simp only [Bool.and_eq_true, beq_iff_eq] at this ⊢
    intro hcon
    exact this ⟨hcon.1, hcon.2⟩
  simp only [signup, if_neg hm, hg, Bool.false_eq_true, if_false, hfil]
  rfl

/-- Witness for C5 (amended): a valid request with an unverified mobile. -/
theorem signup_requires_verified_otp_witness :
    signup emptyDB ({ exSignupReq with gender := none }) (fun p => p)
        (fun _ => "avatar") 0 "u9" =
      (Except.error { message := "Mobile number must be verified before signup", status := 400 }, emptyDB) :=
  signup_requires_verified_otp emptyDB ({ exSignupReq with gender := none })
    (fun p => p) (fun _ => "avatar") 0 "u9" (by decide) (by decide) (by simp [emptyDB])

/-! ## C6: expired stories are hidden everywhere -/

lemma mem_groupStep {x story : Story} {acc : List Story}
    (h : x ∈ groupStep acc story) : x ∈ acc ∨ x = story := by
  unfold groupStep at h
  split at h
  · rcases List.mem_append.mp h with h2 | h2
    · exact Or.inl h2
    · exact Or.inr (List.mem_singleton.mp h2)
  · split at h
    · obtain ⟨e, he, hex⟩ := List.mem_map.mp h
      by_cases hc : (e.userId == story.userId) = true
      · rw [if_pos hc] at hex
        exact Or.inr hex.symm
      · rw [if_neg hc] at hex
        exact Or.inl (hex ▸ he)
    · exact Or.inl h

lemma mem_foldl_groupStep {x : Story} :
    ∀ (rest acc : List Story), x ∈ rest.foldl groupStep acc → x ∈ acc ∨ x ∈ rest := by
  intro rest
  induction rest with
  | nil => intro acc h; exact Or.inl h
  | cons a rest ih =>
    intro acc h
    rcases ih (groupStep acc a) h with h2 | h2
    · rcases mem_groupStep h2 with h3 | h3
      · exact Or.inl h3
      · exact Or.inr (h3 ▸ List.mem_cons_self a rest)
    · exact Or.inr (List.mem_cons_of_mem a h2)

lemma mem_groupLatestByUser {x : Story} {l : List Story}
    (h : x ∈ groupLatestByUser l) : x ∈ l := by
  rcases mem_foldl_groupStep l [] h with h2 | h2
  · exact absurd h2 (List.not_mem_nil x)
  · exact h2

/-- C6: a story whose expiresAt is not strictly after the request time is
never part of any result of getUserStories, getFollowingStories or
getNearbyStories: every returned entry carries expiresAt strictly greater
than the request time. -/
theorem expired_stories_hidden :
    (∀ (db : DB) (uid : String) (now : Int) (e : StoryEntry),
      getUserStories db uid now = Except.ok (some e) → now < e.expiresAt) ∧
    (∀ (db : DB) (uid : String) (now : Int) (l : List StoryEntry) (e : StoryEntry),
      getFollowingStories db uid now = Except.ok l → e ∈ l → now < e.expiresAt) ∧
    (∀ (t : Trig) (db : DB) (uid : String) (q : NearbyQuery) (now : Int) (e : NearbyEntry),
      e ∈ getNearbyStories t db uid q now → now < e.expiresAt) := by
  refine ⟨?_, ?_, ?_⟩
  · intro db uid now e h
    simp only [getUserStories] at h
    split_ifs at h
    revert h
    cases hh : (List.insertionSort Story.newerFirst
        (db.stories.filter (fun s => s.userId == uid && decide (now < s.expiresAt)))).head? with
    | none => intro h; exact absurd h (by simp)
    | some latest =>
      intro h
      rw [Except.ok.injEq, Option.some.injEq] at h
      have hmem : latest ∈ List.insertionSort Story.newerFirst
          (db.stories.filter (fun s => s.userId == uid && decide (now < s.expiresAt))) :=
        List.mem_of_mem_head? (hh ▸ rfl)
      have hmem2 := (List.perm_insertionSort Story.newerFirst _).mem_iff.mp hmem
      simp only [List.mem_filter, Bool.and_eq_true, decide_eq_true_eq] at hmem2
      have : e.expiresAt = latest.expiresAt := by rw [← h]; rfl
      rw [this]
      exact hmem2.2.2
  · intro db uid now l e h hmem
    simp only [getFollowingStories] at h
    split_ifs at h
    · rw [Except.ok.injEq] at h
      subst h
      exact absurd hmem (List.not_mem_nil e)
    · rw [Except.ok.injEq] at h
      subst h
      obtain ⟨s, hs, hse⟩ := List.mem_map.mp hmem
      have hs2 := mem_groupLatestByUser hs
      have hs3 := (List.perm_insertionSort Story.newerFirst _).mem_iff.mp hs2
      simp only [List.mem_filter, Bool.and_eq_true, decide_eq_true_eq] at hs3
      have : e.expiresAt = s.expiresAt := by rw [← hse]; rfl
      rw [this]
      exact hs3.2.2
  · intro t db uid q now e h
    simp only [getNearbyStories] at h
    have h2 := (List.perm_insertionSort NearbyEntry.byDistance _).mem_iff.mp h
    obtain ⟨u, hu, hf⟩ := List.mem_filterMap.mp h2
    unfold nearbyEntryOf at hf
    revert hf
    cases hh : (activeStoriesOf db u.id now).head? with
    | none => intro hf; exact absurd hf (by simp)
    | some s =>
      intro hf
      rw [Option.some.injEq] at hf
      have hsm : s ∈ activeStoriesOf db u.id now := List.mem_of_mem_head? (hh ▸ rfl)
      have hs3 := mem_activeStoriesOf hsm
      have : e.expiresAt = s.expiresAt := by rw [← hf]; rfl
      rw [this]
      exact hs3.2.2

/-- Witness for C6: the concrete single-story database, queried by its owner. -/
theorem expired_stories_hidden_witness :
    getUserStories exDB "u1" 5 = Except.ok (some exStoryEntry) ∧
      (5 : Int) < exStoryEntry.expiresAt :=
  ⟨rfl, expired_stories_hidden.1 exDB "u1" 5 exStoryEntry rfl⟩

/-! ## C1: the nearby candidate set -/

/-- Counterexample to C1 as stated: the requesting user themselves can
satisfy every condition of the claimed candidate set (location inside the
bounding box, an active story, location not null), yet getNearbyStories
never treats them as a candidate, because the user query also excludes the
requester id. -/
theorem nearby_candidates_exclude_requester :
    claimedCandidate exTrig exDB exQuery 5 aliceUser ∧
      aliceUser ∉ nearbyCandidates exTrig exDB aliceUser.id exQuery 5 := by
  constructor
  · refine ⟨by decide, ⟨0, 0, rfl, rfl, ?_, ?_, ?_, ?_⟩,
      ⟨aliceStory, by decide, rfl, by decide⟩⟩ <;>
      norm_num [exQuery, exTrig, aliceUser]
  · decide

/-- C1 as amended: the candidate set of getNearbyStories is exactly the set
of users other than the requester whose stored location lies (inclusively)
inside the bounding box derived with latDelta = r/111 and
lonDelta = r/(111 cos(lat pi/180)) and who have at least one story with
expiresAt strictly after the request time; users with a null stored
location are excluded. -/
theorem nearby_candidates_characterization (t : Trig) (db : DB)
    (userId : String) (q : NearbyQuery) (now : Int) (u : User) :
    u ∈ nearbyCandidates t db userId q now ↔
      u.id ≠ userId ∧ claimedCandidate t db q now u := by
  rw [mem_nearbyCandidates_iff]
  unfold claimedCandidate
  rw [inBoundingBox_iff, hasActiveStory_iff]
  tauto

/-! ## C3: Haversine distances, rounded, sorted ascending -/

/-- C3: every entry of a getNearbyStories response carries as distance the
Haversine distance (Earth radius 6371) between the request coordinates and
the owner's stored coordinates, rounded to one decimal place, and the
response is sorted ascending by this distance field. -/
theorem nearby_distance_haversine_sorted (t : Trig) (db : DB)
    (userId : String) (q : NearbyQuery) (now : Int) :
    List.Sorted NearbyEntry.byDistance (getNearbyStories t db userId q now) ∧
    ∀ e ∈ getNearbyStories t db userId q now,
      ∃ u la lo, u ∈ db.users ∧ u.id = e.userId ∧
        u.latitude = some la ∧ u.longitude = some lo ∧
        e.distance = roundTo1 (haversineDistance t q.latitude q.longitude la lo) := by
  constructor
  · exact List.sorted_insertionSort NearbyEntry.byDistance _
  · intro e he
    simp only [getNearbyStories] at he
    have h2 := (List.perm_insertionSort NearbyEntry.byDistance _).mem_iff.mp he
    obtain ⟨u, hu, hf⟩ := List.mem_filterMap.mp h2
    unfold nearbyEntryOf at hf
    revert hf
    cases hh : (activeStoriesOf db u.id now).head? with
    | none => intro hf; exact absurd hf (by simp)
    | some s =>
      intro hf
      rw [Option.some.injEq] at hf
      have hsm : s ∈ activeStoriesOf db u.id now := List.mem_of_mem_head? (hh ▸ rfl)
      have hs3 := mem_activeStoriesOf hsm
      have hu2 := (mem_nearbyCandidates_iff t db userId q now u).mp hu
      obtain ⟨la, lo, hla, hlo, _, _, _, _⟩ := (inBoundingBox_iff t q u).mp hu2.2.2.1
      refine ⟨u, la, lo, hu2.1, ?_, hla, hlo, ?_⟩
      · rw [← hf]
        exact hs3.2.1.symm
      · rw [← hf]
        show roundTo1 (haversineDistance t q.latitude q.longitude
          (u.latitude.getD 0) (u.longitude.getD 0)) = _
        rw [hla, hlo]
        rfl

lemma exCandidatesEval : nearbyCandidates exTrig exDB aliceUser.id exQuery 5 = [] := by
  decide

lemma exCandidatesEval2 : nearbyCandidates exTrig exDB "r9" exQuery 5 = [aliceUser] := by
  unfold nearbyCandidates exDB
  rw [List.filter_cons]
  norm_num [inBoundingBox, hasActiveStory, exTrig, exQuery, aliceUser, aliceStory, exDB]
  decide

lemma exNearbyEval : getNearbyStories exTrig exDB "r9" exQuery 5 = [exEntry] := by
  unfold getNearbyStories
  rw [exCandidatesEval2]
  rfl

/-- Witness for C3 at the concrete database. -/
theorem nearby_distance_haversine_sorted_witness :
    exEntry ∈ getNearbyStories exTrig exDB "r9" exQuery 5 ∧
    ∃ u la lo, u ∈ exDB.users ∧ u.id = exEntry.userId ∧
      u.latitude = some la ∧ u.longitude = some lo ∧
      exEntry.distance = roundTo1 (haversineDistance exTrig exQuery.latitude exQuery.longitude la lo) :=
  ⟨by simp [exNearbyEval],
   (nearby_distance_haversine_sorted exTrig exDB "r9" exQuery 5).2 exEntry
     (by simp [exNearbyEval])⟩

/-! ## C2: exactly one story per candidate, the latest active one -/

lemma nearbyEntryOf_userId {t : Trig} {db : DB} {q : NearbyQuery} {now : Int}
    {u : User} {e : NearbyEntry} (h : nearbyEntryOf t db q now u = some e) :
    e.userId = u.id := by
  unfold nearbyEntryOf at h
  revert h
  cases hh : (activeStoriesOf db u.id now).head? with
  | none => intro h; exact absurd h (by simp)
  | some s =>
    intro h
    rw [Option.some.injEq] at h
    have hsm := mem_activeStoriesOf (List.mem_of_mem_head? (Option.mem_def.mpr hh))
    rw [← h]
    exact hsm.2.1

lemma mem_filterMap_nearby_userId {t : Trig} {db : DB} {q : NearbyQuery}
    {now : Int} {cands : List User} {e : NearbyEntry}
    (h : e ∈ cands.filterMap (nearbyEntryOf t db q now)) :
    ∃ u ∈ cands, e.userId = u.id := by
  obtain ⟨u, hu, hf⟩ := List.mem_filterMap.mp h
  exact ⟨u, hu, nearbyEntryOf_userId hf⟩

lemma filter_filterMap_nearby (t : Trig) (db : DB) (q : NearbyQuery) (now : Int) :
    ∀ (cands : List User) (u : User) (s : Story),
      (cands.map User.id).Nodup → u ∈ cands →
      (activeStoriesOf db u.id now).head? = some s →
      (cands.filterMap (nearbyEntryOf t db q now)).filter (fun e => e.userId == u.id) =
        [mkNearbyEntry t q u s] := by
  intro cands
  induction cands with
  | nil => intro u s _ hm _; exact absurd hm (List.not_mem_nil u)
  | cons a rest ih =>
    intro u s hnd hm hhead
    rw [List.map_cons, List.nodup_cons] at hnd
    rcases List.mem_cons.mp hm with rfl | hmr
    · have hfa : nearbyEntryOf t db q now u = some (mkNearbyEntry t q u s) := by
        unfold nearbyEntryOf
        rw [hhead]
      rw [List.filterMap_cons, hfa, List.filter_cons,
        if_pos (by simp [nearbyEntryOf_userId hfa])]
      have hrest : (rest.filterMap (nearbyEntryOf t db q now)).filter
          (fun e => e.userId == u.id) = [] := by
        rw [List.filter_eq_nil_iff]
        intro e he
        obtain ⟨u2, hu2, heid⟩ := mem_filterMap_nearby_userId he
        have : ¬(u.id = u2.id) := fun hcon =>
          hnd.1 (hcon ▸ List.mem_map_of_mem User.id hu2)
        simp [heid]
        exact fun hcon => this hcon.symm
      rw [hrest]
    · have hane : ¬(a.id = u.id) := fun hcon =>
        hnd.1 (hcon ▸ List.mem_map_of_mem User.id hmr)
      rw [List.filterMap_cons]
      cases hfa : nearbyEntryOf t db q now a with
      | none => exact ih u s hnd.2 hmr hhead
      | some x =>
        rw [List.filter_cons, if_neg (by simp [nearbyEntryOf_userId hfa, hane])]
        exact ih u s hnd.2 hmr hhead

/-- C2: for every candidate user of a nearby-stories request (assuming
distinct user ids, the primary-key constraint), the response contains
exactly one entry of that user, and it is built from an active story of
that user whose createdAt is greatest among the user's active stories. -/
theorem nearby_one_latest_story_per_candidate (t : Trig) (db : DB)
    (userId : String) (q : NearbyQuery) (now : Int)
    (hnd : (db.users.map User.id).Nodup) :
    ∀ u ∈ nearbyCandidates t db userId q now,
      ∃ s ∈ db.stories, s.userId = u.id ∧ now < s.expiresAt ∧
        (∀ s2 ∈ db.stories, s2.userId = u.id → now < s2.expiresAt →
          s2.createdAt ≤ s.createdAt) ∧
        (getNearbyStories t db userId q now).filter (fun e => e.userId == u.id) =
          [mkNearbyEntry t q u s] := by
  intro u hu
  have hu2 := (mem_nearbyCandidates_iff t db userId q now u).mp hu
  obtain ⟨s0, hs0m, hs0uid, hs0exp⟩ := (hasActiveStory_iff db u now).mp hu2.2.2.2
  have hs0act : s0 ∈ activeStoriesOf db u.id now := by
    unfold activeStoriesOf
    rw [List.mem_insertionSort]
    simp only [List.mem_filter, Bool.and_eq_true, beq_iff_eq, decide_eq_true_eq]
    exact ⟨hs0m, hs0uid, hs0exp⟩
  have hne : activeStoriesOf db u.id now ≠ [] := by
    intro hcon
    rw [hcon] at hs0act
    exact absurd hs0act (List.not_mem_nil s0)
  obtain ⟨s, rest, hcons⟩ := List.exists_cons_of_ne_nil hne
  have hhead : (activeStoriesOf db u.id now).head? = some s := by
    rw [hcons]
    rfl
  have hsact : s ∈ activeStoriesOf db u.id now := by
    rw [hcons]
    exact List.mem_cons_self s rest
  have hsprops := mem_activeStoriesOf hsact
  have hsorted : List.Sorted Story.newerFirst (activeStoriesOf db u.id now) :=
    List.sorted_insertionSort Story.newerFirst _
  rw [hcons] at hsorted
  have hmax : ∀ s2 ∈ db.stories, s2.userId = u.id → now < s2.expiresAt →
      s2.createdAt ≤ s.createdAt := by
    intro s2 hs2m hs2uid hs2exp
    have hs2act : s2 ∈ activeStoriesOf db u.id now := by
      unfold activeStoriesOf
      rw [List.mem_insertionSort]
      simp only [List.mem_filter, Bool.and_eq_true, beq_iff_eq, decide_eq_true_eq]
      exact ⟨hs2m, hs2uid, hs2exp⟩
    rw [hcons] at hs2act
    rcases List.mem_cons.mp hs2act with rfl | hs2r
    · exact le_refl _
    · exact List.rel_of_sorted_cons hsorted s2 hs2r
  have hcnd : ((nearbyCandidates t db userId q now).map User.id).Nodup :=
    List.Nodup.sublist (List.Sublist.map User.id (List.filter_sublist db.users)) hnd
  have hkey := filter_filterMap_nearby t db q now
    (nearbyCandidates t db userId q now) u s hcnd hu hhead
  have hperm : ((getNearbyStories t db userId q now).filter
      (fun e => e.userId == u.id)).Perm
      (((nearbyCandidates t db userId q now).filterMap
        (nearbyEntryOf t db q now)).filter (fun e => e.userId == u.id)) := by
    unfold getNearbyStories
    exact List.Perm.filter _ (List.perm_insertionSort NearbyEntry.byDistance _)
  refine ⟨s, hsprops.1, hsprops.2.1, hsprops.2.2, hmax, ?_⟩
  rw [hkey] at hperm
  exact List.perm_singleton.mp hperm

/-- Witness for C2 at the concrete database. -/
theorem nearby_one_latest_story_witness :
    (exDB.users.map User.id).Nodup ∧
    aliceUser ∈ nearbyCandidates exTrig exDB "r9" exQuery 5 ∧
    ∃ s ∈ exDB.stories, s.userId = aliceUser.id ∧ (5:Int) < s.expiresAt ∧
      (∀ s2 ∈ exDB.stories, s2.userId = aliceUser.id → (5:Int) < s2.expiresAt →
        s2.createdAt ≤ s.createdAt) ∧
      (getNearbyStories exTrig exDB "r9" exQuery 5).filter
        (fun e => e.userId == aliceUser.id) = [mkNearbyEntry exTrig exQuery aliceUser s] :=
  ⟨by decide, by simp [exCandidatesEval2],
   nearby_one_latest_story_per_candidate exTrig exDB "r9" exQuery 5 (by decide)
     aliceUser (by simp [exCandidatesEval2])⟩

/-! ## C7: per-pair uniqueness and counter consistency -/

lemma countP_eq_filter_ne_add {α : Type} (idf : α → Nat) (p : α → Bool) (e : α) :
    ∀ l : List α, e ∈ l → (l.map idf).Nodup →
      l.countP p = (l.filter (fun a => !(idf a == idf e))).countP p +
        (if p e = true then 1 else 0) := by
  intro l
  induction l with
  | nil => intro h _; exact absurd h (List.not_mem_nil e)
  | cons a l ih =>
    intro hm hnd
    rw [List.map_cons, List.nodup_cons] at hnd
    rcases List.mem_cons.mp hm with rfl | hml
    · have hfl : l.filter (fun x => !(idf x == idf e)) = l := by
        rw [List.filter_eq_self]
        intro x hx
        simp only [Bool.not_eq_eq_eq_not, Bool.not_true, beq_eq_false_iff_ne, ne_eq]
        exact fun hcon => hnd.1 (hcon ▸ List.mem_map_of_mem idf hx)
      rw [List.filter_cons, if_neg (by simp), hfl, List.countP_cons]
    · have hane : ¬(idf a = idf e) := fun hcon =>
        hnd.1 (hcon ▸ List.mem_map_of_mem idf hml)
      rw [List.filter_cons, if_pos (by simp [hane]), List.countP_cons,
        List.countP_cons, ih hml hnd.2]
      by_cases hp : p a = true
      · simp [hp]
        omega
      · simp [hp]

lemma nodup_map_append_fresh {α : Type} (idf : α → Nat) (l : List α) (r : α)
    (hnd : (l.map idf).Nodup) (hlt : ∀ x ∈ l, idf x < idf r) :
    ((l ++ [r]).map idf).Nodup := by
  rw [List.map_append, List.nodup_append]
  refine ⟨hnd, List.nodup_singleton _, ?_⟩
  intro x hx hx2
  obtain ⟨y, hy, rfl⟩ := List.mem_map.mp hx
  rw [List.map_singleton, List.mem_singleton] at hx2
  exact absurd hx2 (Nat.ne_of_lt (hlt y hy))

lemma DBInv_of_components {db : DB}
    (h1 : List.Pairwise (fun a b : StoryLike => ¬(a.storyId = b.storyId ∧ a.userId = b.userId)) db.storyLikes)
    (h2 : List.Pairwise (fun a b : StoryView => ¬(a.storyId = b.storyId ∧ a.userId = b.userId)) db.storyViews)
    (h3 : ∀ l ∈ db.storyLikes, l.id < db.nextRowId)
    (h4 : ∀ v ∈ db.storyViews, v.id < db.nextRowId)
    (h5 : (db.storyLikes.map StoryLike.id).Nodup)
    (h6 : (db.storyViews.map StoryView.id).Nodup)
    (h7 : ∀ s ∈ db.stories,
      s.likesCount = (db.storyLikes.countP (fun l => l.storyId == s.id) : Int) ∧
      s.viewsCount = (db.storyViews.countP (fun v => v.storyId == s.id) : Int)) :
    DBInv db := ⟨h1, h2, h3, h4, h5, h6, h7⟩

lemma DBInv_likeStory (db : DB) (storyId userId : String) (now : Int)
    (h : DBInv db) : DBInv (likeStory db storyId userId now false false).2 := by
  obtain ⟨hpl, hpv, hil, hiv, hnl, hnv, hcnt⟩ := h
  unfold likeStory
  by_cases h1 : userId = ""
  · rw [if_pos h1]
    exact ⟨hpl, hpv, hil, hiv, hnl, hnv, hcnt⟩
  rw [if_neg h1]
  by_cases h2 : storyId = ""
  · rw [if_pos h2]
    exact ⟨hpl, hpv, hil, hiv, hnl, hnv, hcnt⟩
  rw [if_neg h2]
  cases hf : db.stories.find? (fun s => s.id == storyId) with
  | none => exact ⟨hpl, hpv, hil, hiv, hnl, hnv, hcnt⟩
  | some story =>
    dsimp only
    by_cases h3 : story.expiresAt < now
    · rw [if_pos h3]
      exact ⟨hpl, hpv, hil, hiv, hnl, hnv, hcnt⟩
    rw [if_neg h3]
    cases hl : db.storyLikes.find? (fun l => l.storyId == storyId && l.userId == userId) with
    | some e =>
      simp only [Bool.false_eq_true, if_false]
      have hmem : e ∈ db.storyLikes := List.mem_of_find?_eq_some hl
      have hpred := List.find?_some hl
      simp only [Bool.and_eq_true, beq_iff_eq] at hpred
      refine DBInv_of_components ?_ hpv ?_ hiv ?_ hnv ?_
      · exact List.Pairwise.sublist (List.filter_sublist _) hpl
      · intro l hlm
        exact hil l (List.mem_of_mem_filter hlm)
      · exact List.Nodup.sublist (List.Sublist.map StoryLike.id (List.filter_sublist _)) hnl
      · intro s hs
        obtain ⟨s0, hs0, rfl⟩ := List.mem_map.mp hs
        have hold := hcnt s0 hs0
        have hkey := countP_eq_filter_ne_add StoryLike.id
          (fun l => l.storyId == s0.id) e db.storyLikes hmem hnl
        by_cases hsid : (s0.id == storyId) = true
        · rw [if_pos hsid]
          rw [beq_iff_eq] at hsid
          have hpe : (e.storyId == s0.id) = true := by
            rw [beq_iff_eq, hpred.1, hsid]
          rw [if_pos hpe] at hkey
          constructor
          · show s0.likesCount - 1 = _
            rw [hold.1, hkey]
            push_cast
            ring
          · show s0.viewsCount = _
            exact hold.2
        · rw [if_neg hsid]
          have hpe : ¬((e.storyId == s0.id) = true) := by
            rw [beq_iff_eq, hpred.1]
            rw [beq_iff_eq] at hsid
            exact fun hcon => hsid hcon.symm
          rw [if_neg hpe, Nat.add_zero] at hkey
          exact ⟨hold.1.trans (by rw [hkey]), hold.2⟩
    | none =>
      simp only [Bool.false_eq_true, if_false]
      have hnone := List.find?_eq_none.mp hl
      refine DBInv_of_components ?_ hpv ?_ ?_ ?_ hnv ?_
      · rw [List.pairwise_append]
        refine ⟨hpl, List.pairwise_singleton _ _, ?_⟩
        intro a ha b hb
        rw [List.mem_singleton] at hb
        subst hb
        intro hcon
        exact hnone a ha (by simp [hcon.1, hcon.2])
      · intro l hlm
        rcases List.mem_append.mp hlm with hmo | hmr
        · exact Nat.lt_succ_of_lt (hil l hmo)
        · rw [List.mem_singleton] at hmr
          subst hmr
          exact Nat.lt_succ_self _
      · intro v hv
        exact Nat.lt_succ_of_lt (hiv v hv)
      · exact nodup_map_append_fresh StoryLike.id db.storyLikes _ hnl hil
      · intro s hs
        obtain ⟨s0, hs0, rfl⟩ := List.mem_map.mp hs
        have hold := hcnt s0 hs0
        rw [List.countP_append]
        by_cases hsid : (s0.id == storyId) = true
        · rw [if_pos hsid]
          rw [beq_iff_eq] at hsid
          have : (List.countP (fun l => l.storyId == s0.id)
              ([{ id := db.nextRowId, storyId := storyId, userId := userId }] : List StoryLike)) = 1 := by
            simp [List.countP_cons, hsid]
          rw [this]
          constructor
          · show s0.likesCount + 1 = _
            rw [hold.1]
            push_cast
            ring
          · exact hold.2
        · rw [if_neg hsid]
          have : (List.countP (fun l => l.storyId == s0.id)
              ([{ id := db.nextRowId, storyId := storyId, userId := userId }] : List StoryLike)) = 0 := by
            have h0 : ¬((storyId == s0.id) = true) := by
              rw [beq_iff_eq]
              rw [beq_iff_eq] at hsid
              exact fun hcon => hsid hcon.symm
            simp only [List.countP_cons, List.countP_nil]
            simp [h0]
          rw [this, Nat.add_zero]
          exact ⟨hold.1, hold.2⟩

lemma DBInv_viewStory (db : DB) (storyId userId : String) (now : Int)
    (h : DBInv db) : DBInv (viewStory db storyId userId now false false).2 := by
  obtain ⟨hpl, hpv, hil, hiv, hnl, hnv, hcnt⟩ := h
  unfold viewStory
  by_cases h1 : userId = ""
  · rw [if_pos h1]
    exact ⟨hpl, hpv, hil, hiv, hnl, hnv, hcnt⟩
  rw [if_neg h1]
  by_cases h2 : storyId = ""
  · rw [if_pos h2]
    exact ⟨hpl, hpv, hil, hiv, hnl, hnv, hcnt⟩
  rw [if_neg h2]
  cases hf : db.stories.find? (fun s => s.id == storyId) with
  | none => exact ⟨hpl, hpv, hil, hiv, hnl, hnv, hcnt⟩
  | some story =>
    dsimp only
    by_cases h3 : story.expiresAt < now
    · rw [if_pos h3]
      exact ⟨hpl, hpv, hil, hiv, hnl, hnv, hcnt⟩
    rw [if_neg h3]
    by_cases h4 : (story.userId == userId) = true
    · rw [if_pos h4]
      exact ⟨hpl, hpv, hil, hiv, hnl, hnv, hcnt⟩
    rw [if_neg h4]
    cases hv : db.storyViews.find? (fun v => v.storyId == storyId && v.userId == userId) with
    | some e => exact ⟨hpl, hpv, hil, hiv, hnl, hnv, hcnt⟩
    | none =>
      simp only [Bool.false_eq_true, if_false]
      have hnone := List.find?_eq_none.mp hv
      refine DBInv_of_components hpl ?_ ?_ ?_ hnl ?_ ?_
      · rw [List.pairwise_append]
        refine ⟨hpv, List.pairwise_singleton _ _, ?_⟩
        intro a ha b hb
        rw [List.mem_singleton] at hb
        subst hb
        intro hcon
        exact hnone a ha (by simp [hcon.1, hcon.2])
      · intro l hlm
        exact Nat.lt_succ_of_lt (hil l hlm)
      · intro v hvm
        rcases List.mem_append.mp hvm with hmo | hmr
        · exact Nat.lt_succ_of_lt (hiv v hmo)
        · rw [List.mem_singleton] at hmr
          subst hmr
          exact Nat.lt_succ_self _
      · exact nodup_map_append_fresh StoryView.id db.storyViews _ hnv hiv
      · intro s hs
        obtain ⟨s0, hs0, rfl⟩ := List.mem_map.mp hs
        have hold := hcnt s0 hs0
        rw [List.countP_append]
        by_cases hsid : (s0.id == storyId) = true
        · rw [if_pos hsid]
          rw [beq_iff_eq] at hsid
          have hone : (List.countP (fun v => v.storyId == s0.id)
              ([{ id := db.nextRowId, storyId := storyId, userId := userId }] : List StoryView)) = 1 := by
            simp [List.countP_cons, hsid]
          rw [hone]
          constructor
          · exact hold.1
          · show s0.viewsCount + 1 = _
            rw [hold.2]
            push_cast
            ring
        · rw [if_neg hsid]
          have hzero : (List.countP (fun v => v.storyId == s0.id)
              ([{ id := db.nextRowId, storyId := storyId, userId := userId }] : List StoryView)) = 0 := by
            have h0 : ¬((storyId == s0.id) = true) := by
              rw [beq_iff_eq]
              rw [beq_iff_eq] at hsid
              exact fun hcon => hsid hcon.symm
            simp only [List.countP_cons, List.countP_nil]
            simp [h0]
          rw [hzero, Nat.add_zero]
          exact ⟨hold.1, hold.2⟩

/-- C7: starting from any state satisfying the uniqueness/counter invariant
(at most one StoryLike and one StoryView row per (story, user) pair, and
every story's likesCount/viewsCount equal to its row counts), any sequence
of like/view requests preserves it. -/
theorem story_like_view_invariant (db : DB) (ops : List StoryOp)
    (h : DBInv db) : DBInv (runOps db ops) := by
  induction ops generalizing db with
  | nil => exact h
  | cons op ops ih =>
    simp only [runOps, List.foldl_cons]
    have hstep : DBInv (applyOp db op) := by
      cases op with
      | like sid uid n => exact DBInv_likeStory db sid uid n h
      | view sid uid n => exact DBInv_viewStory db sid uid n h
    exact ih (applyOp db op) hstep

/-- Witness for C7: the invariant holds in the example database and after
running the example like and view requests on it. -/
theorem story_like_view_invariant_witness :
    DBInv exDB ∧ DBInv (runOps exDB exOps) :=
  ⟨by unfold DBInv; decide,
   story_like_view_invariant exDB exOps (by unfold DBInv; decide)⟩
